import Mathlib

/-!
# Verification of the 9th-grade Flask/SQLite teaching apps

Shallow embedding, in Lean 4, of the parts of the repository that the
frozen claims are about:

* `SchoolStore` — the point-of-sale checkout transaction of
  `04-school-store/app.py` (`checkout`, `generate_transaction_id`,
  the `sales` / `sale_items` / `products` tables);
* `ProjectTracker` — the checkpoint schedule generator of
  `06-student-project-tracker/app.py` (`create_checkpoints`);
* `Helpdesk` — the registration handler of `02-helpdesk-system/app.py`;
* `BasicCrud` — the delete handler of `01-basic-crud-app/app.py`.

Python integers are embedded as `Int`/`Nat`, Python `//` (floor
division) as `Int.fdiv`, SQL `REAL` price columns as `ℚ` (exact
arithmetic stands in for the float arithmetic of the source; every
concrete value appearing in the claims is exactly representable),
SQLite tables as Lean lists of rows, and the SQLite
connection/transaction discipline as a pair of a committed database
state and a working state, where `commit` publishes the working state
and `rollback` discards it.
-/

namespace SchoolStore

/-- One cart line as sent by the POS front end: `item['id']`,
`item['quantity']`, `item['price']` in `checkout`. -/
structure CartItem where
  id : Nat
  quantity : Int
  price : ℚ
deriving Repr, DecidableEq

/-- A row of the `products` table, restricted to the columns checkout
touches (`id`, `stock_quantity`). -/
structure Product where
  id : Nat
  stock_quantity : Int
deriving Repr, DecidableEq

/-- A row of the `sales` table, restricted to the columns the insert in
`checkout` provides. -/
structure Sale where
  id : Nat
  transaction_id : String
  user_id : Nat
  total_amount : ℚ
  payment_method : String
deriving Repr, DecidableEq

/-- A row of the `sale_items` table. -/
structure SaleItem where
  sale_id : Nat
  product_id : Nat
  quantity : Int
  unit_price : ℚ
  total_price : ℚ
deriving Repr, DecidableEq

/-- The on-disk database state relevant to checkout: the three tables
and the autoincrement counter of `sales.id`. -/
structure StoreDB where
  products : List Product
  sales : List Sale
  sale_items : List SaleItem
  next_sale_id : Nat
deriving Repr, DecidableEq

/-- A SQLite connection: the committed (on-disk) state and the working
state of the open transaction.  `conn.execute` statements act on the
working state; `conn.commit()` publishes it; `conn.rollback()` discards
it. -/
structure Conn where
  committed : StoreDB
  working : StoreDB
deriving Repr, DecidableEq

/-- Commit the open transaction: `conn.commit()`. -/
def Conn.commit (c : Conn) : Conn := ⟨c.working, c.working⟩

/-- Discard the open transaction: `conn.rollback()`. -/
def Conn.rollback (c : Conn) : Conn := ⟨c.committed, c.committed⟩

/-- The statement `INSERT INTO sales (transaction_id, user_id,
total_amount, payment_method) VALUES (?,?,?,?)`.  `sales.transaction_id` is declared
`UNIQUE`, so the insert raises `IntegrityError` (modelled as `none`)
when the transaction id is already present; otherwise it returns
`cursor.lastrowid` and the updated table. -/
def insertSale (db : StoreDB) (txn : String) (uid : Nat) (total : ℚ)
    (pm : String) : Option (Nat × StoreDB) :=
  if db.sales.any (fun s => s.transaction_id = txn) then none
  else
    some (db.next_sale_id,
      { db with
        sales := db.sales ++ [⟨db.next_sale_id, txn, uid, total, pm⟩],
        next_sale_id := db.next_sale_id + 1 })

/-- The statement `INSERT INTO sale_items (sale_id, product_id,
quantity, unit_price, total_price) VALUES (?,?,?,?,?)` with
`total_price = item['quantity'] * item['price']`. -/
def insertSaleItem (db : StoreDB) (sid : Nat) (it : CartItem) : StoreDB :=
  { db with
    sale_items := db.sale_items ++
      [⟨sid, it.id, it.quantity, it.price, (it.quantity : ℚ) * it.price⟩] }

/-- The statement
`UPDATE products SET stock_quantity = stock_quantity - ? WHERE id = ?`. -/
def updateStock (db : StoreDB) (pid : Nat) (q : Int) : StoreDB :=
  { db with
    products := db.products.map (fun p =>
      if p.id = pid then { p with stock_quantity := p.stock_quantity - q }
      else p) }

/-- The computation
`total_amount = sum(item['quantity'] * item['price'] for item in items)`. -/
def cartTotal (items : List CartItem) : ℚ :=
  (items.map (fun it => (it.quantity : ℚ) * it.price)).sum

/-- The JSON responses `checkout` can return. -/
inductive CheckoutResult where
  /-- Response `{'success': False, 'message': 'No items in cart'}`. -/
  | noItems
  /-- Response of the `except` branch: failure JSON with an error text. -/
  | failureJson
  /-- Response `{'success': True, …}` carrying the transaction id and
  the total amount. -/
  | success (transaction_id : String) (total_amount : ℚ)
deriving Repr, DecidableEq

/-- Is a fault (an injected exception) scheduled just before executing
statement number `n` of the `try` block? -/
def faultAt : Option Nat → Nat → Bool
  | some k, n => n = k
  | none, _ => false

/-- The `for item in items:` loop of `checkout`: for each cart line,
insert the `sale_items` row and decrement the product's stock.  `n`
numbers the statements of the `try` block for fault injection; a raised
exception returns the connection as it stood (`Sum.inl`). -/
def processItemsF (c : Conn) (sid : Nat) (fault : Option Nat) (n : Nat) :
    List CartItem → Conn ⊕ (Conn × Nat)
  | [] => Sum.inr (c, n)
  | it :: rest =>
    if faultAt fault n then Sum.inl c
    else
      let c1 : Conn := ⟨c.committed, insertSaleItem c.working sid it⟩
      if faultAt fault (n + 1) then Sum.inl c1
      else
        let c2 : Conn := ⟨c1.committed, updateStock c1.working it.id it.quantity⟩
        processItemsF c2 sid fault (n + 2) rest

/-- The `checkout` handler of `04-school-store/app.py` (lines 397–453),
from the `if not items` guard on.  `txn` is the value of
`generate_transaction_id()` for this request, `fault = some k` injects
an exception just before statement `k` of the `try` block (statement 0
is the `sales` insert, statements `2i+1`, `2i+2` the `sale_items`
insert and stock update of line `i`, statement `2·len+1` the commit).
Returns the JSON response and the on-disk state after `conn.close()`. -/
def checkout (db : StoreDB) (uid : Nat) (txn : String)
    (items : List CartItem) (pm : String) (fault : Option Nat) :
    CheckoutResult × StoreDB :=
  if items.isEmpty then (.noItems, db)
  else
    let c : Conn := ⟨db, db⟩
    let total := cartTotal items
    if faultAt fault 0 then (.failureJson, c.rollback.committed)
    else
      match insertSale c.working txn uid total pm with
      | none => (.failureJson, c.rollback.committed)
      | some (sid, w1) =>
        let c1 : Conn := ⟨c.committed, w1⟩
        match processItemsF c1 sid fault 1 items with
        | Sum.inl cbad => (.failureJson, cbad.rollback.committed)
        | Sum.inr (c2, n) =>
          if faultAt fault n then (.failureJson, c2.rollback.committed)
          else (.success txn total, c2.commit.committed)

/-- The cumulative effect on the working database of the `for item in
items:` loop of `checkout` (one `sale_items` insert and one stock
update per cart line), used to characterize `processItemsF`. -/
def itemsEffect (db : StoreDB) (sid : Nat) : List CartItem → StoreDB
  | [] => db
  | it :: rest =>
      itemsEffect (updateStock (insertSaleItem db sid it) it.id it.quantity)
        sid rest

/-- The total quantity the cart orders of product `pid`: the sum of the
quantities of the cart lines referencing it. -/
def cartQty (items : List CartItem) (pid : Nat) : Int :=
  ((items.filter (fun it => it.id == pid)).map CartItem.quantity).sum

/-- A wall-clock reading at one-second granularity, the input of
`datetime.now().strftime('%Y%m%d%H%M%S')`. -/
structure DateTime where
  year : Nat
  month : Nat
  day : Nat
  hour : Nat
  minute : Nat
  second : Nat
deriving Repr, DecidableEq

/-- The field bounds guaranteed by `datetime` (weakened to what the
zero-padded decimal rendering needs: each two-digit field below 100,
the year below 10000). -/
def DateTime.bounded (t : DateTime) : Prop :=
  t.year < 10000 ∧ t.month < 100 ∧ t.day < 100 ∧ t.hour < 100 ∧
    t.minute < 100 ∧ t.second < 100

instance (t : DateTime) : Decidable t.bounded := by
  unfold DateTime.bounded; infer_instance

/-- A zero-padded two-digit decimal field of `strftime` (`%m`, `%d`,
`%H`, `%M`, `%S`). -/
def pad2 (n : Nat) : List Char :=
  [Nat.digitChar (n / 10 % 10), Nat.digitChar (n % 10)]

/-- The zero-padded four-digit year field of `strftime` (`%Y`). -/
def pad4 (n : Nat) : List Char :=
  [Nat.digitChar (n / 1000 % 10), Nat.digitChar (n / 100 % 10),
   Nat.digitChar (n / 10 % 10), Nat.digitChar (n % 10)]

/-- The rendering `datetime.now().strftime('%Y%m%d%H%M%S')`: six
zero-padded decimal fields, concatenated. -/
def strftimeYmdHMS (t : DateTime) : String :=
  String.mk (pad4 t.year ++ pad2 t.month ++ pad2 t.day ++ pad2 t.hour ++
    pad2 t.minute ++ pad2 t.second)

/-- Function `generate_transaction_id` of `04-school-store/app.py` (lines
141–144): `f"TXN{timestamp}"` where `timestamp` is the current
wall-clock time rendered at one-second granularity.  The clock reading
is passed as the argument. -/
def generate_transaction_id (now : DateTime) : String :=
  "TXN" ++ strftimeYmdHMS now

end SchoolStore

namespace ProjectTracker

/-- A row of the `checkpoints` table as inserted by
`create_checkpoints`.  Dates are embedded as absolute day numbers
(`Int`), so `project_start + timedelta(days=k)` is `project_start + k`. -/
structure Checkpoint where
  project_id : Nat
  title : String
  due_date : Int
  points : Int
  order_num : Nat
deriving Repr, DecidableEq

/-- Python's `zip` over three lists: truncates at the shortest. -/
def zip3 {α β γ : Type} : List α → List β → List γ → List (α × β × γ)
  | a :: as, b :: bs, c :: cs => (a, b, c) :: zip3 as bs cs
  | _, _, _ => []

/-- Function `create_checkpoints` of `06-student-project-tracker/app.py`
(lines
117–162).  `project_start` embeds `date.today()` and `project_end` the
parsed `due_date`, both as absolute day numbers, so
`days_duration = (project_end - project_start).days` is their
difference; Python's floor division `//` is `Int.fdiv`.  Returns the
inserted checkpoint rows in insertion order. -/
def create_checkpoints (project_id : Nat) (project_start project_end : Int)
    (total_points : Int) : List Checkpoint :=
  let days_duration := project_end - project_start
  let dps :=
    if days_duration ≤ 7 then
      ([project_start + days_duration.fdiv 2, project_end],
       [total_points.fdiv 2, total_points.fdiv 2],
       ["Midpoint Review", "Final Submission"])
    else if days_duration ≤ 14 then
      ([project_start + days_duration.fdiv 3,
        project_start + (2 * days_duration).fdiv 3, project_end],
       [total_points.fdiv 3, total_points.fdiv 3, total_points.fdiv 3],
       ["Initial Progress", "Midpoint Review", "Final Submission"])
    else
      ([project_start + days_duration.fdiv 4,
        project_start + days_duration.fdiv 2,
        project_start + (3 * days_duration).fdiv 4, project_end],
       [total_points.fdiv 4, total_points.fdiv 4, total_points.fdiv 4,
        total_points.fdiv 4],
       ["Initial Progress", "Quarter Review", "Midpoint Review",
        "Final Submission"])
  (zip3 dps.1 dps.2.1 dps.2.2).enum.map
    (fun e => ⟨project_id, e.2.2.2, e.2.1, e.2.2.1, e.1 + 1⟩)

end ProjectTracker

namespace Helpdesk

/-- A row of the helpdesk `users` table (`02-helpdesk-system/app.py`);
`username` and `email` are declared `UNIQUE`. -/
structure User where
  id : Nat
  username : String
  email : String
  password : String
  role : String
deriving Repr, DecidableEq

/-- The `users` table with its autoincrement counter. -/
structure UsersTable where
  rows : List User
  next_id : Nat
deriving Repr, DecidableEq

/-- The outcomes of the `register` POST handler. -/
inductive RegisterResult where
  /-- Success path: flash a message and `redirect(url_for('login'))`. -/
  | redirectLogin
  /-- Error path: `sqlite3.IntegrityError` caught, flash
  `'Username or email already exists'` and re-render the form. -/
  | alreadyExists
deriving Repr, DecidableEq

/-- The statement `INSERT INTO users (username, email, password, role)
VALUES (?,?,?,?)`: raises `IntegrityError` (modelled as `none`) when the
`UNIQUE` constraint on `username` or `email` is violated. -/
def insert_user (tbl : UsersTable) (username email password role : String) :
    Option UsersTable :=
  if tbl.rows.any (fun u => u.username = username || u.email = email) then
    none
  else
    some ⟨tbl.rows ++ [⟨tbl.next_id, username, email, password, role⟩],
      tbl.next_id + 1⟩

/-- The POST branch of `register` in `02-helpdesk-system/app.py` (lines
209–231): insert the new user with role `'customer'`, committing on
success; a uniqueness violation is caught and reported, leaving the
table unchanged. -/
def register (tbl : UsersTable) (username email password : String) :
    RegisterResult × UsersTable :=
  match insert_user tbl username email password "customer" with
  | none => (.alreadyExists, tbl)
  | some t => (.redirectLogin, t)

end Helpdesk

namespace BasicCrud

/-- A row of the `items` table of `01-basic-crud-app/app.py`. -/
structure Item where
  id : Nat
  name : String
  description : String
deriving Repr, DecidableEq

/-- The only response the delete handler produces. -/
inductive DeleteResult where
  /-- Redirect `redirect(url_for("index"))`. -/
  | redirectIndex
deriving Repr, DecidableEq

/-- The `delete` handler of `01-basic-crud-app/app.py` (lines 159–168):
`DELETE FROM items WHERE id = ?`, commit, redirect to the index page. -/
def delete (items : List Item) (item_id : Nat) : DeleteResult × List Item :=
  (.redirectIndex, items.filter (fun it => it.id != item_id))

end BasicCrud

/-!
## Theorems: the point-of-sale checkout
-/

namespace SchoolStore

/-- Lemma: `Nat.digitChar` is injective on single digits. -/
theorem digitChar_inj : ∀ a < 10, ∀ b < 10,
    Nat.digitChar a = Nat.digitChar b → a = b := by decide

/-- Lemma: the `%Y%m%d%H%M%S` rendering is injective on in-range clock
readings, i.e. distinct seconds render to distinct timestamps. -/
theorem strftimeYmdHMS_inj (t1 t2 : DateTime) (hb1 : t1.bounded)
    (hb2 : t2.bounded) (h : strftimeYmdHMS t1 = strftimeYmdHMS t2) :
    t1 = t2 := by
  obtain ⟨hy1, hmo1, hd1, hh1, hmi1, hs1⟩ := hb1
  obtain ⟨hy2, hmo2, hd2, hh2, hmi2, hs2⟩ := hb2
  rw [String.ext_iff] at h
  simp only [strftimeYmdHMS, pad4, pad2, List.cons_append, List.nil_append,
    List.cons.injEq, and_true] at h
  obtain ⟨a1, a2, a3, a4, b1, b2, c1, c2, d1, d2, e1, e2, f1, f2⟩ := h
  have ey : t1.year = t2.year := by
    have q1 := digitChar_inj _ (by omega) _ (by omega) a1
    have q2 := digitChar_inj _ (by omega) _ (by omega) a2
    have q3 := digitChar_inj _ (by omega) _ (by omega) a3
    have q4 := digitChar_inj _ (by omega) _ (by omega) a4
    omega
  have emo : t1.month = t2.month := by
    have q1 := digitChar_inj _ (by omega) _ (by omega) b1
    have q2 := digitChar_inj _ (by omega) _ (by omega) b2
    omega
  have ed : t1.day = t2.day := by
    have q1 := digitChar_inj _ (by omega) _ (by omega) c1
    have q2 := digitChar_inj _ (by omega) _ (by omega) c2
    omega
  have eh : t1.hour = t2.hour := by
    have q1 := digitChar_inj _ (by omega) _ (by omega) d1
    have q2 := digitChar_inj _ (by omega) _ (by omega) d2
    omega
  have emi : t1.minute = t2.minute := by
    have q1 := digitChar_inj _ (by omega) _ (by omega) e1
    have q2 := digitChar_inj _ (by omega) _ (by omega) e2
    omega
  have es : t1.second = t2.second := by
    have q1 := digitChar_inj _ (by omega) _ (by omega) f1
    have q2 := digitChar_inj _ (by omega) _ (by omega) f2
    omega
  cases t1; cases t2
  simp_all

/-- Lemma: two checkouts processed in distinct seconds receive distinct
transaction ids. -/
theorem generate_transaction_id_inj (t1 t2 : DateTime) (hb1 : t1.bounded)
    (hb2 : t2.bounded)
    (h : generate_transaction_id t1 = generate_transaction_id t2) :
    t1 = t2 := by
  apply strftimeYmdHMS_inj t1 t2 hb1 hb2
  have hd := congrArg String.data h
  simp only [generate_transaction_id, String.data_append] at hd
  exact String.ext (List.append_cancel_left hd)

/-- Lemma: the item loop never touches the `sales` table. -/
theorem itemsEffect_sales (sid : Nat) (items : List CartItem) :
    ∀ db : StoreDB, (itemsEffect db sid items).sales = db.sales := by
  induction items with
  | nil => intro db; rfl
  | cons it rest ih =>
    intro db
    simp [itemsEffect, ih, insertSaleItem, updateStock]

/-- Lemma: the item loop never touches the sale-id counter. -/
theorem itemsEffect_next_sale_id (sid : Nat) (items : List CartItem) :
    ∀ db : StoreDB,
      (itemsEffect db sid items).next_sale_id = db.next_sale_id := by
  induction items with
  | nil => intro db; rfl
  | cons it rest ih =>
    intro db
    simp [itemsEffect, ih, insertSaleItem, updateStock]

/-- Lemma: the item loop appends one `sale_items` row per cart line,
with `total_price` the line's quantity times its unit price. -/
theorem itemsEffect_sale_items (sid : Nat) (items : List CartItem) :
    ∀ db : StoreDB,
      (itemsEffect db sid items).sale_items =
        db.sale_items ++ items.map (fun it =>
          ⟨sid, it.id, it.quantity, it.price,
           (it.quantity : ℚ) * it.price⟩) := by
  induction items with
  | nil => intro db; simp [itemsEffect]
  | cons it rest ih =>
    intro db
    simp [itemsEffect, ih, insertSaleItem, updateStock]

/-- Lemma: unfolding `cartQty` over the head of the cart. -/
theorem cartQty_cons (it : CartItem) (rest : List CartItem) (pid : Nat) :
    cartQty (it :: rest) pid =
      (if it.id = pid then it.quantity else 0) + cartQty rest pid := by
  by_cases h : it.id = pid <;> simp [cartQty, List.filter_cons, h]

/-- Lemma: the item loop decrements each product's stock by the total
quantity the cart orders of it. -/
theorem itemsEffect_products (sid : Nat) (items : List CartItem) :
    ∀ db : StoreDB,
      (itemsEffect db sid items).products =
        db.products.map (fun p =>
          ⟨p.id, p.stock_quantity - cartQty items p.id⟩) := by
  induction items with
  | nil =>
    intro db
    have h0 : ∀ p : Product,
        (⟨p.id, p.stock_quantity - cartQty [] p.id⟩ : Product) = p := by
      intro p; simp [cartQty]
    simp [itemsEffect, h0]
  | cons it rest ih =>
    intro db
    simp only [itemsEffect]
    rw [ih]
    simp only [insertSaleItem, updateStock]
    rw [List.map_map]
    apply List.map_congr_left
    intro p _
    by_cases h : p.id = it.id
    · simp [Function.comp, h, cartQty_cons]
      ring
    · simp [Function.comp, h, cartQty_cons]
      exact fun hcontra => absurd hcontra.symm h

/-- Lemma: the item loop's full effect on the database, assembled from
the per-table lemmas. -/
theorem itemsEffect_eq (sid : Nat) (items : List CartItem) (db : StoreDB) :
    itemsEffect db sid items =
      ⟨db.products.map (fun p =>
          ⟨p.id, p.stock_quantity - cartQty items p.id⟩),
       db.sales,
       db.sale_items ++ items.map (fun it =>
          ⟨sid, it.id, it.quantity, it.price, (it.quantity : ℚ) * it.price⟩),
       db.next_sale_id⟩ := by
  have hp := itemsEffect_products sid items db
  have hs := itemsEffect_sales sid items db
  have hsi := itemsEffect_sale_items sid items db
  have hn := itemsEffect_next_sale_id sid items db
  cases h : itemsEffect db sid items
  simp_all

/-- Lemma: with no injected fault, the item loop runs to completion,
executes `2·len` statements, and leaves the committed state alone. -/
theorem processItemsF_none (sid : Nat) (items : List CartItem) :
    ∀ (c : Conn) (n : Nat),
      processItemsF c sid none n items =
        Sum.inr (⟨c.committed, itemsEffect c.working sid items⟩,
          n + 2 * items.length) := by
  induction items with
  | nil => intro c n; simp [processItemsF, itemsEffect]
  | cons it rest ih =>
    intro c n
    simp [processItemsF, faultAt, ih, itemsEffect]
    omega

/-- Lemma: with a fault scheduled at statement `k`, the item loop either
raises with the committed state untouched, or runs to completion because
`k` lies outside its statement range. -/
theorem processItemsF_fault (sid k : Nat) (items : List CartItem) :
    ∀ (c : Conn) (n : Nat),
      (∃ cb, processItemsF c sid (some k) n items = Sum.inl cb ∧
        cb.committed = c.committed) ∨
      (processItemsF c sid (some k) n items =
          Sum.inr (⟨c.committed, itemsEffect c.working sid items⟩,
            n + 2 * items.length) ∧
        (k < n ∨ n + 2 * items.length ≤ k)) := by
  induction items with
  | nil =>
    intro c n
    right
    refine ⟨by simp [processItemsF, itemsEffect],
      by simp only [List.length_nil]; omega⟩
  | cons it rest ih =>
    intro c n
    by_cases h0 : n = k
    · left
      exact ⟨c, by simp [processItemsF, faultAt, h0], rfl⟩
    · by_cases h1 : n + 1 = k
      · left
        refine ⟨⟨c.committed, insertSaleItem c.working sid it⟩, ?_, rfl⟩
        simp [processItemsF, faultAt, h0, h1]
      · have hred : processItemsF c sid (some k) n (it :: rest) =
            processItemsF
              ⟨c.committed,
               updateStock (insertSaleItem c.working sid it) it.id
                 it.quantity⟩
              sid (some k) (n + 2) rest := by
          simp [processItemsF, faultAt, h0, h1]
        rcases ih ⟨c.committed,
            updateStock (insertSaleItem c.working sid it) it.id it.quantity⟩
            (n + 2) with ⟨cb, hcb, hcom⟩ | ⟨heq, hk⟩
        · left
          exact ⟨cb, by rw [hred, hcb], hcom⟩
        · right
          constructor
          · rw [hred, heq]
            simp [itemsEffect]
            omega
          · simp only [List.length_cons] at hk ⊢
            omega

/-- Lemma: a fault-free checkout with a fresh transaction id and a
non-empty cart commits exactly the expected new database state. -/
theorem checkout_success (db : StoreDB) (uid : Nat) (txn : String)
    (items : List CartItem) (pm : String) (hne : items ≠ [])
    (hfresh : ∀ s ∈ db.sales, s.transaction_id ≠ txn) :
    checkout db uid txn items pm none =
      (.success txn (cartTotal items),
       ⟨db.products.map (fun p =>
          ⟨p.id, p.stock_quantity - cartQty items p.id⟩),
        db.sales ++ [⟨db.next_sale_id, txn, uid, cartTotal items, pm⟩],
        db.sale_items ++ items.map (fun it =>
          ⟨db.next_sale_id, it.id, it.quantity, it.price,
           (it.quantity : ℚ) * it.price⟩),
        db.next_sale_id + 1⟩) := by
  have hempty : items.isEmpty = false := by
    cases items with
    | nil => exact absurd rfl hne
    | cons a l => rfl
  have hany : (db.sales.any fun s => s.transaction_id = txn) = false := by
    simp only [List.any_eq_false, decide_eq_true_eq]
    exact hfresh
  simp only [checkout, hempty, Bool.false_eq_true, if_false, faultAt,
    insertSale, hany, Conn.commit, processItemsF_none, itemsEffect_eq]

/-- Lemma: a checkout whose transaction id is already present in
`sales` hits the `UNIQUE` constraint, rolls back, and leaves the
database unchanged. -/
theorem checkout_dup (db : StoreDB) (uid : Nat) (txn : String)
    (items : List CartItem) (pm : String) (hne : items ≠ [])
    (hdup : ∃ s ∈ db.sales, s.transaction_id = txn) :
    checkout db uid txn items pm none = (.failureJson, db) := by
  have hempty : items.isEmpty = false := by
    cases items with
    | nil => exact absurd rfl hne
    | cons a l => rfl
  have hany : (db.sales.any fun s => s.transaction_id = txn) = true := by
    simp only [List.any_eq_true, decide_eq_true_eq]
    exact hdup
  simp [checkout, hempty, faultAt, insertSale, hany, Conn.rollback]

/-- Lemma: a cart of products the cart never mentions orders zero of
`pid`. -/
theorem cartQty_eq_zero (items : List CartItem) (pid : Nat)
    (h : ∀ it ∈ items, it.id ≠ pid) : cartQty items pid = 0 := by
  induction items with
  | nil => rfl
  | cons x rest ih =>
    rw [cartQty_cons, if_neg (h x (List.mem_cons_self x rest)),
      ih (fun it hit => h it (List.mem_cons_of_mem x hit))]
    ring

/-- Lemma: when the cart references every product at most once, the
total ordered quantity of a line's product is that line's quantity. -/
theorem cartQty_of_nodup (items : List CartItem)
    (hd : (items.map CartItem.id).Nodup) (it : CartItem)
    (hmem : it ∈ items) : cartQty items it.id = it.quantity := by
  induction items with
  | nil => cases hmem
  | cons x rest ih =>
    rw [List.map_cons, List.nodup_cons] at hd
    obtain ⟨hx, hrest⟩ := hd
    rcases List.mem_cons.mp hmem with rfl | hmem'
    · rw [cartQty_cons, if_pos rfl, cartQty_eq_zero rest it.id ?_]
      · ring
      · intro y hy hcontra
        exact hx (hcontra ▸ List.mem_map_of_mem CartItem.id hy)
    · have hidmem : it.id ∈ rest.map CartItem.id :=
        List.mem_map_of_mem CartItem.id hmem'
      have hne : x.id ≠ it.id := fun hcontra => hx (hcontra ▸ hidmem)
      rw [cartQty_cons, if_neg hne, ih hrest hmem']
      ring

/-- Claim C1: a successful checkout of a non-empty cart inserts exactly
one sale header whose `total_amount` is the sum over the lines of
quantity times unit price, one `sale_items` row per cart line with
`total_price` the line's quantity times unit price, and decrements each
referenced product's stock by exactly that line's quantity. -/
theorem claim_C1_checkout_effects (db : StoreDB) (uid : Nat) (txn : String)
    (items : List CartItem) (pm : String) (hne : items ≠ [])
    (hfresh : ∀ s ∈ db.sales, s.transaction_id ≠ txn)
    (hdist : (items.map CartItem.id).Nodup) :
    (checkout db uid txn items pm none).1 =
      .success txn ((items.map fun it => (it.quantity : ℚ) * it.price).sum) ∧
    (checkout db uid txn items pm none).2.sales =
      db.sales ++ [⟨db.next_sale_id, txn, uid,
        (items.map fun it => (it.quantity : ℚ) * it.price).sum, pm⟩] ∧
    (checkout db uid txn items pm none).2.sale_items =
      db.sale_items ++ items.map (fun it =>
        ⟨db.next_sale_id, it.id, it.quantity, it.price,
         (it.quantity : ℚ) * it.price⟩) ∧
    (∀ it ∈ items, ∀ p ∈ db.products, p.id = it.id →
      (⟨p.id, p.stock_quantity - it.quantity⟩ : Product) ∈
        (checkout db uid txn items pm none).2.products) := by
  rw [checkout_success db uid txn items pm hne hfresh]
  refine ⟨rfl, rfl, rfl, ?_⟩
  intro it hit p hp hpid
  have hq : cartQty items p.id = it.quantity := by
    rw [hpid]; exact cartQty_of_nodup items hdist it hit
  have he : (⟨p.id, p.stock_quantity - it.quantity⟩ : Product) =
      ⟨p.id, p.stock_quantity - cartQty items p.id⟩ := by rw [hq]
  rw [he]
  exact List.mem_map_of_mem _ hp

/-- Witness for C1: the spec's own example, a cart of quantity 2 at
price 5 and quantity 3 at price 10 yields a sale total of 40 and the
two stock decrements. -/
theorem claim_C1_witness :
    (checkout ⟨[⟨1, 10⟩, ⟨2, 20⟩], [], [], 1⟩ 7 "TXN20240101120000"
        [⟨1, 2, 5⟩, ⟨2, 3, 10⟩] "cash" none).1 =
      .success "TXN20240101120000" 40 ∧
    (checkout ⟨[⟨1, 10⟩, ⟨2, 20⟩], [], [], 1⟩ 7 "TXN20240101120000"
        [⟨1, 2, 5⟩, ⟨2, 3, 10⟩] "cash" none).2.sales =
      [⟨1, "TXN20240101120000", 7, 40, "cash"⟩] ∧
    (⟨1, 10 - 2⟩ : Product) ∈
      (checkout ⟨[⟨1, 10⟩, ⟨2, 20⟩], [], [], 1⟩ 7 "TXN20240101120000"
        [⟨1, 2, 5⟩, ⟨2, 3, 10⟩] "cash" none).2.products ∧
    (⟨2, 20 - 3⟩ : Product) ∈
      (checkout ⟨[⟨1, 10⟩, ⟨2, 20⟩], [], [], 1⟩ 7 "TXN20240101120000"
        [⟨1, 2, 5⟩, ⟨2, 3, 10⟩] "cash" none).2.products := by
  have h := claim_C1_checkout_effects ⟨[⟨1, 10⟩, ⟨2, 20⟩], [], [], 1⟩ 7
    "TXN20240101120000" [⟨1, 2, 5⟩, ⟨2, 3, 10⟩] "cash" (by decide)
    (by intro s hs; cases hs) (by decide)
  have hsum : ((([⟨1, 2, 5⟩, ⟨2, 3, 10⟩] : List CartItem)).map
      fun it => (it.quantity : ℚ) * it.price).sum = 40 := by norm_num
  refine ⟨?_, ?_, ?_, ?_⟩
  · rw [h.1, hsum]
  · rw [h.2.1, hsum]; rfl
  · exact h.2.2.2 ⟨1, 2, 5⟩ (by decide) ⟨1, 10⟩ (by decide) rfl
  · exact h.2.2.2 ⟨2, 3, 10⟩ (by decide) ⟨2, 20⟩ (by decide) rfl

/-- Claim C2: an exception raised at any statement of the `try` block
(fault injected before statement `k`, for any `k` up to and including
the commit) rolls the whole transaction back — the returned database
equals the initial one — and the handler answers with the failure JSON
instead of propagating. -/
theorem claim_C2_rollback_on_exception (db : StoreDB) (uid : Nat)
    (txn : String) (items : List CartItem) (pm : String) (k : Nat)
    (hne : items ≠ []) (hk : k ≤ 1 + 2 * items.length) :
    checkout db uid txn items pm (some k) = (.failureJson, db) := by
  have hempty : items.isEmpty = false := by
    cases items with
    | nil => exact absurd rfl hne
    | cons a l => rfl
  by_cases h0 : k = 0
  · subst h0
    simp [checkout, hempty, faultAt, Conn.rollback]
  · have hf0 : faultAt (some k) 0 = false := by
      simp [faultAt]; omega
    simp only [checkout, hempty, Bool.false_eq_true, if_false, hf0]
    cases hins : insertSale db txn uid (cartTotal items) pm with
    | none => rfl
    | some p =>
      obtain ⟨sid, w1⟩ := p
      rcases processItemsF_fault sid k items ⟨db, w1⟩ 1 with
        ⟨cb, hcb, hcom⟩ | ⟨heq, hkk⟩
      · simp only [hcb, Conn.rollback, hcom]
      · have hkeq : k = 1 + 2 * items.length := by omega
        simp only [heq]
        have hfc : faultAt (some k) (1 + 2 * items.length) = true := by
          simp [faultAt, hkeq]
        simp only [hfc, if_true, Conn.rollback]

/-- Witness for C2: an exception injected right after the sale-header
insert of a one-line cart leaves the database exactly as it was. -/
theorem claim_C2_witness :
    checkout ⟨[⟨1, 5⟩], [], [], 1⟩ 7 "TXN20240101120000"
        [⟨1, 1, 1⟩] "cash" (some 1) =
      (.failureJson, ⟨[⟨1, 5⟩], [], [], 1⟩) :=
  claim_C2_rollback_on_exception ⟨[⟨1, 5⟩], [], [], 1⟩ 7
    "TXN20240101120000" [⟨1, 1, 1⟩] "cash" 1 (by decide) (by decide)

/-- Claim C6: checkout performs no stock-sufficiency check — buying
quantity 5 of a product with stock 1 succeeds and leaves the stock at
-4, strictly negative. -/
theorem claim_C6_no_stock_check :
    (5 : Int) > 1 ∧
    (checkout ⟨[⟨1, 1⟩], [], [], 1⟩ 7 "TXN20240101120000"
        [⟨1, 5, 2⟩] "cash" none).1 =
      .success "TXN20240101120000" 10 ∧
    (checkout ⟨[⟨1, 1⟩], [], [], 1⟩ 7 "TXN20240101120000"
        [⟨1, 5, 2⟩] "cash" none).2.products = [⟨1, -4⟩] ∧
    (-4 : Int) < 0 := by
  have h := checkout_success ⟨[⟨1, 1⟩], [], [], 1⟩ 7 "TXN20240101120000"
    [⟨1, 5, 2⟩] "cash" (by decide) (by intro s hs; cases hs)
  have htot : cartTotal [⟨1, 5, 2⟩] = 10 := by
    norm_num [cartTotal]
  refine ⟨by norm_num, ?_, ?_, by norm_num⟩
  · rw [h, htot]
  · rw [h]
    simp [cartQty]

/-- Counterexample to C7 as stated: resubmitting the identical checkout
request within the same second reuses the same clock-derived
transaction id, so the second submission fails on the `UNIQUE`
constraint and the database keeps one sale and a single stock decrement
— not two sales and a doubled decrement. -/
theorem claim_C7_counterexample :
    (checkout (checkout ⟨[⟨1, 10⟩], [], [], 1⟩ 7
        (generate_transaction_id ⟨2024, 1, 1, 12, 0, 0⟩)
        [⟨1, 2, 5⟩] "cash" none).2 7
      (generate_transaction_id ⟨2024, 1, 1, 12, 0, 0⟩)
      [⟨1, 2, 5⟩] "cash" none).1 = .failureJson ∧
    (checkout (checkout ⟨[⟨1, 10⟩], [], [], 1⟩ 7
        (generate_transaction_id ⟨2024, 1, 1, 12, 0, 0⟩)
        [⟨1, 2, 5⟩] "cash" none).2 7
      (generate_transaction_id ⟨2024, 1, 1, 12, 0, 0⟩)
      [⟨1, 2, 5⟩] "cash" none).2.products = [⟨1, 8⟩] ∧
    (checkout (checkout ⟨[⟨1, 10⟩], [], [], 1⟩ 7
        (generate_transaction_id ⟨2024, 1, 1, 12, 0, 0⟩)
        [⟨1, 2, 5⟩] "cash" none).2 7
      (generate_transaction_id ⟨2024, 1, 1, 12, 0, 0⟩)
      [⟨1, 2, 5⟩] "cash" none).2.sales.length = 1 ∧
    ¬ ((checkout (checkout ⟨[⟨1, 10⟩], [], [], 1⟩ 7
        (generate_transaction_id ⟨2024, 1, 1, 12, 0, 0⟩)
        [⟨1, 2, 5⟩] "cash" none).2 7
      (generate_transaction_id ⟨2024, 1, 1, 12, 0, 0⟩)
      [⟨1, 2, 5⟩] "cash" none).2.products = [⟨1, 10 - 2 * 2⟩] ∧
      (checkout (checkout ⟨[⟨1, 10⟩], [], [], 1⟩ 7
        (generate_transaction_id ⟨2024, 1, 1, 12, 0, 0⟩)
        [⟨1, 2, 5⟩] "cash" none).2 7
      (generate_transaction_id ⟨2024, 1, 1, 12, 0, 0⟩)
      [⟨1, 2, 5⟩] "cash" none).2.sales.length = 2) := by
  have hA : checkout ⟨[⟨1, 10⟩], [], [], 1⟩ 7
      (generate_transaction_id ⟨2024, 1, 1, 12, 0, 0⟩)
      [⟨1, 2, 5⟩] "cash" none =
      (.success (generate_transaction_id ⟨2024, 1, 1, 12, 0, 0⟩) 10,
       ⟨[⟨1, 8⟩],
        [⟨1, generate_transaction_id ⟨2024, 1, 1, 12, 0, 0⟩, 7, 10, "cash"⟩],
        [⟨1, 1, 2, 5, 10⟩], 2⟩) := by
    rw [checkout_success _ _ _ _ _ (by decide) (by intro s hs; cases hs)]
    norm_num [cartTotal, cartQty]
  have hB : checkout (⟨[⟨1, 8⟩],
        [⟨1, generate_transaction_id ⟨2024, 1, 1, 12, 0, 0⟩, 7, 10, "cash"⟩],
        [⟨1, 1, 2, 5, 10⟩], 2⟩ : StoreDB) 7
      (generate_transaction_id ⟨2024, 1, 1, 12, 0, 0⟩)
      [⟨1, 2, 5⟩] "cash" none =
      (.failureJson,
       ⟨[⟨1, 8⟩],
        [⟨1, generate_transaction_id ⟨2024, 1, 1, 12, 0, 0⟩, 7, 10, "cash"⟩],
        [⟨1, 1, 2, 5, 10⟩], 2⟩) :=
    checkout_dup _ _ _ _ _ (by decide) ⟨_, List.mem_cons_self _ _, rfl⟩
  rw [hA]
  dsimp only
  rw [hB]
  refine ⟨rfl, rfl, rfl, fun hcon => absurd hcon.2 (by decide)⟩

/-- Claim C7 as amended: submitting the identical cart twice
double-charges inventory and records two separate sales provided the
two submissions obtain distinct (and fresh) transaction ids — that is,
are processed in different seconds; there is no idempotency key beyond
the accidental same-second collision of the clock-derived id. -/
theorem claim_C7_amended_double_charge (db : StoreDB) (uid : Nat)
    (txn1 txn2 : String) (items : List CartItem) (pm : String)
    (hne : items ≠ [])
    (h1 : ∀ s ∈ db.sales, s.transaction_id ≠ txn1)
    (h2 : ∀ s ∈ db.sales, s.transaction_id ≠ txn2)
    (h12 : txn2 ≠ txn1)
    (hdist : (items.map CartItem.id).Nodup) :
    (checkout db uid txn1 items pm none).1 = .success txn1 (cartTotal items) ∧
    (checkout (checkout db uid txn1 items pm none).2 uid txn2 items pm
        none).1 = .success txn2 (cartTotal items) ∧
    (checkout (checkout db uid txn1 items pm none).2 uid txn2 items pm
        none).2.sales.length = db.sales.length + 2 ∧
    ∀ it ∈ items, ∀ p ∈ db.products, p.id = it.id →
      (⟨p.id, p.stock_quantity - 2 * it.quantity⟩ : Product) ∈
        (checkout (checkout db uid txn1 items pm none).2 uid txn2 items pm
          none).2.products := by
  have hA := checkout_success db uid txn1 items pm hne h1
  rw [hA]
  dsimp only
  have h2' : ∀ s ∈ db.sales ++
      [(⟨db.next_sale_id, txn1, uid, cartTotal items, pm⟩ : Sale)],
      s.transaction_id ≠ txn2 := by
    intro s hs
    rcases List.mem_append.mp hs with h | h
    · exact h2 s h
    · rw [List.mem_singleton.mp h]
      exact fun he => h12 he.symm
  have hB := checkout_success
    ⟨db.products.map (fun p =>
        ⟨p.id, p.stock_quantity - cartQty items p.id⟩),
     db.sales ++ [⟨db.next_sale_id, txn1, uid, cartTotal items, pm⟩],
     db.sale_items ++ items.map (fun it =>
        ⟨db.next_sale_id, it.id, it.quantity, it.price,
         (it.quantity : ℚ) * it.price⟩),
     db.next_sale_id + 1⟩ uid txn2 items pm hne h2'
  rw [hB]
  dsimp only
  refine ⟨rfl, rfl, by simp, ?_⟩
  intro it hit p hp hpid
  have hq : cartQty items p.id = it.quantity := by
    rw [hpid]; exact cartQty_of_nodup items hdist it hit
  have hmem2 := List.mem_map_of_mem
    (fun p : Product => (⟨p.id, p.stock_quantity - cartQty items p.id⟩ :
      Product))
    (List.mem_map_of_mem
      (fun p : Product => (⟨p.id, p.stock_quantity - cartQty items p.id⟩ :
        Product)) hp)
  have he : (⟨p.id, p.stock_quantity - 2 * it.quantity⟩ : Product) =
      ⟨p.id, p.stock_quantity - cartQty items p.id - cartQty items p.id⟩ := by
    rw [hq]; congr 1; ring
  rw [he]
  exact hmem2

/-- Witness for the amended C7: two submissions of the same one-line
cart under distinct transaction ids stack both decrements and record
two sales. -/
theorem claim_C7_amended_witness :
    (checkout ⟨[⟨1, 10⟩], [], [], 1⟩ 7 "TXN20240101120000"
        [⟨1, 2, 5⟩] "cash" none).1 =
      .success "TXN20240101120000" (cartTotal [⟨1, 2, 5⟩]) ∧
    (checkout (checkout ⟨[⟨1, 10⟩], [], [], 1⟩ 7 "TXN20240101120000"
        [⟨1, 2, 5⟩] "cash" none).2 7 "TXN20240101120001"
        [⟨1, 2, 5⟩] "cash" none).1 =
      .success "TXN20240101120001" (cartTotal [⟨1, 2, 5⟩]) ∧
    (checkout (checkout ⟨[⟨1, 10⟩], [], [], 1⟩ 7 "TXN20240101120000"
        [⟨1, 2, 5⟩] "cash" none).2 7 "TXN20240101120001"
        [⟨1, 2, 5⟩] "cash" none).2.sales.length = 0 + 2 ∧
    ∀ it ∈ [(⟨1, 2, 5⟩ : CartItem)],
      ∀ p ∈ [(⟨1, 10⟩ : Product)], p.id = it.id →
      (⟨p.id, p.stock_quantity - 2 * it.quantity⟩ : Product) ∈
        (checkout (checkout ⟨[⟨1, 10⟩], [], [], 1⟩ 7 "TXN20240101120000"
          [⟨1, 2, 5⟩] "cash" none).2 7 "TXN20240101120001"
          [⟨1, 2, 5⟩] "cash" none).2.products :=
  claim_C7_amended_double_charge ⟨[⟨1, 10⟩], [], [], 1⟩ 7
    "TXN20240101120000" "TXN20240101120001" [⟨1, 2, 5⟩] "cash"
    (by decide) (by intro s hs; cases hs) (by intro s hs; cases hs)
    (by decide) (by decide)

/-- Claim C10: transaction ids are derived from the wall clock at
one-second granularity and `sales.transaction_id` is `UNIQUE`, so a
same-second retry of a checkout collides, is rolled back (the database
is exactly the state the first checkout left), and returns failure
JSON, while a retry in a different second gets a distinct id and
succeeds as a new sale. -/
theorem claim_C10_same_second_collision (db : StoreDB) (uid : Nat)
    (items : List CartItem) (pm : String) (t1 t2 : DateTime)
    (hne : items ≠ []) (hb1 : t1.bounded) (hb2 : t2.bounded) (hts : t1 ≠ t2)
    (h1 : ∀ s ∈ db.sales, s.transaction_id ≠ generate_transaction_id t1)
    (h2 : ∀ s ∈ db.sales, s.transaction_id ≠ generate_transaction_id t2) :
    (checkout db uid (generate_transaction_id t1) items pm none).1 =
      .success (generate_transaction_id t1) (cartTotal items) ∧
    checkout (checkout db uid (generate_transaction_id t1) items pm none).2
        uid (generate_transaction_id t1) items pm none =
      (.failureJson,
       (checkout db uid (generate_transaction_id t1) items pm none).2) ∧
    (checkout (checkout db uid (generate_transaction_id t1) items pm none).2
        uid (generate_transaction_id t2) items pm none).1 =
      .success (generate_transaction_id t2) (cartTotal items) ∧
    (checkout (checkout db uid (generate_transaction_id t1) items pm none).2
        uid (generate_transaction_id t2) items pm none).2.sales.length =
      db.sales.length + 2 := by
  have hinj : generate_transaction_id t1 ≠ generate_transaction_id t2 :=
    fun he => hts (generate_transaction_id_inj t1 t2 hb1 hb2 he)
  have hA := checkout_success db uid (generate_transaction_id t1) items pm
    hne h1
  rw [hA]
  dsimp only
  have hdup : ∃ s ∈ db.sales ++
      [(⟨db.next_sale_id, generate_transaction_id t1, uid, cartTotal items,
        pm⟩ : Sale)],
      s.transaction_id = generate_transaction_id t1 :=
    ⟨_, List.mem_append_right _ (List.mem_singleton_self _), rfl⟩
  have h2' : ∀ s ∈ db.sales ++
      [(⟨db.next_sale_id, generate_transaction_id t1, uid, cartTotal items,
        pm⟩ : Sale)],
      s.transaction_id ≠ generate_transaction_id t2 := by
    intro s hs
    rcases List.mem_append.mp hs with h | h
    · exact h2 s h
    · rw [List.mem_singleton.mp h]
      exact hinj
  have hB := checkout_success
    ⟨db.products.map (fun p =>
        ⟨p.id, p.stock_quantity - cartQty items p.id⟩),
     db.sales ++ [⟨db.next_sale_id, generate_transaction_id t1, uid,
       cartTotal items, pm⟩],
     db.sale_items ++ items.map (fun it =>
        ⟨db.next_sale_id, it.id, it.quantity, it.price,
         (it.quantity : ℚ) * it.price⟩),
     db.next_sale_id + 1⟩ uid (generate_transaction_id t2) items pm hne h2'
  refine ⟨rfl, ?_, ?_, ?_⟩
  · exact checkout_dup _ _ _ _ _ hne hdup
  · rw [hB]
  · rw [hB]
    simp

/-- Witness for C10: a concrete same-second collision at
`2024-01-01 12:00:00` followed by a successful retry one second
later. -/
theorem claim_C10_witness :
    (checkout ⟨[⟨1, 10⟩], [], [], 1⟩ 7
        (generate_transaction_id ⟨2024, 1, 1, 12, 0, 0⟩)
        [⟨1, 2, 5⟩] "cash" none).1 =
      .success (generate_transaction_id ⟨2024, 1, 1, 12, 0, 0⟩)
        (cartTotal [⟨1, 2, 5⟩]) ∧
    checkout (checkout ⟨[⟨1, 10⟩], [], [], 1⟩ 7
        (generate_transaction_id ⟨2024, 1, 1, 12, 0, 0⟩)
        [⟨1, 2, 5⟩] "cash" none).2 7
        (generate_transaction_id ⟨2024, 1, 1, 12, 0, 0⟩)
        [⟨1, 2, 5⟩] "cash" none =
      (.failureJson,
       (checkout ⟨[⟨1, 10⟩], [], [], 1⟩ 7
         (generate_transaction_id ⟨2024, 1, 1, 12, 0, 0⟩)
         [⟨1, 2, 5⟩] "cash" none).2) ∧
    (checkout (checkout ⟨[⟨1, 10⟩], [], [], 1⟩ 7
        (generate_transaction_id ⟨2024, 1, 1, 12, 0, 0⟩)
        [⟨1, 2, 5⟩] "cash" none).2 7
        (generate_transaction_id ⟨2024, 1, 1, 12, 0, 1⟩)
        [⟨1, 2, 5⟩] "cash" none).1 =
      .success (generate_transaction_id ⟨2024, 1, 1, 12, 0, 1⟩)
        (cartTotal [⟨1, 2, 5⟩]) ∧
    (checkout (checkout ⟨[⟨1, 10⟩], [], [], 1⟩ 7
        (generate_transaction_id ⟨2024, 1, 1, 12, 0, 0⟩)
        [⟨1, 2, 5⟩] "cash" none).2 7
        (generate_transaction_id ⟨2024, 1, 1, 12, 0, 1⟩)
        [⟨1, 2, 5⟩] "cash" none).2.sales.length = 0 + 2 :=
  claim_C10_same_second_collision ⟨[⟨1, 10⟩], [], [], 1⟩ 7 [⟨1, 2, 5⟩]
    "cash" ⟨2024, 1, 1, 12, 0, 0⟩ ⟨2024, 1, 1, 12, 0, 1⟩
    (by decide) (by decide) (by decide) (by decide)
    (by intro s hs; cases hs) (by intro s hs; cases hs)

end SchoolStore

/-!
## Theorems: the checkpoint schedule generator
-/

namespace ProjectTracker

/-- The short-project bucket (`days_duration <= 7`) of
`create_checkpoints`, written out. -/
theorem create_checkpoints_short (pid : Nat) (s e P : ℤ) (h : e - s ≤ 7) :
    create_checkpoints pid s e P =
      [⟨pid, "Midpoint Review", s + (e - s).fdiv 2, P.fdiv 2, 1⟩,
       ⟨pid, "Final Submission", e, P.fdiv 2, 2⟩] := by
  simp only [create_checkpoints]
  rw [if_pos h]
  rfl

/-- The medium-project bucket (`7 < days_duration <= 14`) of
`create_checkpoints`, written out. -/
theorem create_checkpoints_medium (pid : Nat) (s e P : ℤ) (h7 : ¬ e - s ≤ 7)
    (h14 : e - s ≤ 14) :
    create_checkpoints pid s e P =
      [⟨pid, "Initial Progress", s + (e - s).fdiv 3, P.fdiv 3, 1⟩,
       ⟨pid, "Midpoint Review", s + (2 * (e - s)).fdiv 3, P.fdiv 3, 2⟩,
       ⟨pid, "Final Submission", e, P.fdiv 3, 3⟩] := by
  simp only [create_checkpoints]
  rw [if_neg h7, if_pos h14]
  rfl

/-- The long-project bucket (`days_duration > 14`) of
`create_checkpoints`, written out. -/
theorem create_checkpoints_long (pid : Nat) (s e P : ℤ) (h7 : ¬ e - s ≤ 7)
    (h14 : ¬ e - s ≤ 14) :
    create_checkpoints pid s e P =
      [⟨pid, "Initial Progress", s + (e - s).fdiv 4, P.fdiv 4, 1⟩,
       ⟨pid, "Quarter Review", s + (e - s).fdiv 2, P.fdiv 4, 2⟩,
       ⟨pid, "Midpoint Review", s + (3 * (e - s)).fdiv 4, P.fdiv 4, 3⟩,
       ⟨pid, "Final Submission", e, P.fdiv 4, 4⟩] := by
  simp only [create_checkpoints]
  rw [if_neg h7, if_neg h14]
  rfl

/-- Claim C3: for a project due `D` days after the creation day, the
generator creates exactly 2 checkpoints when `D ≤ 7`, 3 when
`7 < D ≤ 14`, and 4 when `D > 14`; the final checkpoint is dated on the
due date itself and the intermediate ones at the integer-division
fractions of the duration (`D//2`; or `D//3` and `2*D//3`; or `D//4`,
`D//2`, `3*D//4`) after the creation day. -/
theorem claim_C3_checkpoint_schedule (pid : Nat) (s P D : ℤ) :
    (D ≤ 7 →
      (create_checkpoints pid s (s + D) P).length = 2 ∧
      (create_checkpoints pid s (s + D) P).map Checkpoint.due_date =
        [s + D.fdiv 2, s + D]) ∧
    (7 < D → D ≤ 14 →
      (create_checkpoints pid s (s + D) P).length = 3 ∧
      (create_checkpoints pid s (s + D) P).map Checkpoint.due_date =
        [s + D.fdiv 3, s + (2 * D).fdiv 3, s + D]) ∧
    (14 < D →
      (create_checkpoints pid s (s + D) P).length = 4 ∧
      (create_checkpoints pid s (s + D) P).map Checkpoint.due_date =
        [s + D.fdiv 4, s + D.fdiv 2, s + (3 * D).fdiv 4, s + D]) := by
  have hd : s + D - s = D := by ring
  refine ⟨fun h1 => ?_, fun h1 h2 => ?_, fun h1 => ?_⟩
  · rw [create_checkpoints_short pid s (s + D) P (by omega)]
    simp [hd]
  · rw [create_checkpoints_medium pid s (s + D) P (by omega) (by omega)]
    simp [hd]
  · rw [create_checkpoints_long pid s (s + D) P (by omega) (by omega)]
    simp [hd]

/-- Witness for C3: the three buckets evaluated for projects due in 5,
10 and 20 days. -/
theorem claim_C3_witness :
    ((create_checkpoints 1 0 (0 + 5) 100).length = 2 ∧
      (create_checkpoints 1 0 (0 + 5) 100).map Checkpoint.due_date =
        [0 + (5 : ℤ).fdiv 2, 0 + 5]) ∧
    ((create_checkpoints 1 0 (0 + 10) 100).length = 3 ∧
      (create_checkpoints 1 0 (0 + 10) 100).map Checkpoint.due_date =
        [0 + (10 : ℤ).fdiv 3, 0 + (2 * 10 : ℤ).fdiv 3, 0 + 10]) ∧
    ((create_checkpoints 1 0 (0 + 20) 100).length = 4 ∧
      (create_checkpoints 1 0 (0 + 20) 100).map Checkpoint.due_date =
        [0 + (20 : ℤ).fdiv 4, 0 + (20 : ℤ).fdiv 2, 0 + (3 * 20 : ℤ).fdiv 4,
         0 + 20]) :=
  ⟨(claim_C3_checkpoint_schedule 1 0 100 5).1 (by decide),
   (claim_C3_checkpoint_schedule 1 0 100 10).2.1 (by decide) (by decide),
   (claim_C3_checkpoint_schedule 1 0 100 20).2.2 (by decide)⟩

/-- Claim C4: with `n` checkpoints generated for a project worth `P`
points, every checkpoint gets exactly `P // n` points, the sum of the
checkpoint points is `n * (P // n)`, which is `< P` exactly when `n`
does not divide `P` and `= P` otherwise; the remainder is never
redistributed. -/
theorem claim_C4_point_truncation (pid : Nat) (s e P : ℤ) :
    (∀ c ∈ create_checkpoints pid s e P,
       c.points = P.fdiv ((create_checkpoints pid s e P).length : ℤ)) ∧
    ((create_checkpoints pid s e P).map Checkpoint.points).sum =
      ((create_checkpoints pid s e P).length : ℤ) *
        P.fdiv ((create_checkpoints pid s e P).length : ℤ) ∧
    (¬ (((create_checkpoints pid s e P).length : ℤ) ∣ P) →
      ((create_checkpoints pid s e P).map Checkpoint.points).sum < P) ∧
    ((((create_checkpoints pid s e P).length : ℤ) ∣ P) →
      ((create_checkpoints pid s e P).map Checkpoint.points).sum = P) := by
  have hf : ∀ (Q n : ℤ), 0 ≤ n → Q.fdiv n = Q / n := fun Q n h =>
    Int.fdiv_eq_ediv Q h
  by_cases h7 : e - s ≤ 7
  · rw [create_checkpoints_short pid s e P h7]
    refine ⟨?_, ?_, ?_, ?_⟩ <;>
      simp [hf _ 2 (by norm_num)] <;> omega
  · by_cases h14 : e - s ≤ 14
    · rw [create_checkpoints_medium pid s e P h7 h14]
      refine ⟨?_, ?_, ?_, ?_⟩ <;>
        simp [hf _ 3 (by norm_num)] <;> omega
    · rw [create_checkpoints_long pid s e P h7 h14]
      refine ⟨?_, ?_, ?_, ?_⟩ <;>
        simp [hf _ 4 (by norm_num)] <;> omega

/-- Witness for C4: the spec's own example, 100 points over a 10-day
project (3 checkpoints): 33 + 33 + 33 = 99 < 100. -/
theorem claim_C4_witness :
    (∀ c ∈ create_checkpoints 1 0 10 100,
       c.points =
         (100 : ℤ).fdiv ((create_checkpoints 1 0 10 100).length : ℤ)) ∧
    ((create_checkpoints 1 0 10 100).map Checkpoint.points).sum = 99 ∧
    ¬ (((create_checkpoints 1 0 10 100).length : ℤ) ∣ 100) ∧
    ((create_checkpoints 1 0 10 100).map Checkpoint.points).sum < 100 := by
  have h := claim_C4_point_truncation 1 0 10 100
  have hnd : ¬ (((create_checkpoints 1 0 10 100).length : ℤ) ∣ 100) := by
    decide
  exact ⟨h.1, by decide, hnd, h.2.2.1 hnd⟩

/-- Claim C5: a project due exactly 10 days after creation gets exactly
3 checkpoints, with strictly increasing dates, whose points sum to at
most the project's total points. -/
theorem claim_C5_ten_day_project (pid : Nat) (s P : ℤ) :
    (create_checkpoints pid s (s + 10) P).length = 3 ∧
    List.Chain' (fun a b => a < b)
      ((create_checkpoints pid s (s + 10) P).map Checkpoint.due_date) ∧
    ((create_checkpoints pid s (s + 10) P).map Checkpoint.points).sum ≤ P := by
  rw [create_checkpoints_medium pid s (s + 10) P (by omega) (by omega)]
  have hd : s + 10 - s = 10 := by ring
  have hf : P.fdiv 3 = P / 3 := Int.fdiv_eq_ediv P (by norm_num)
  refine ⟨rfl, ?_, ?_⟩
  · simp [hd, List.chain'_cons]
  · simp [hf]
    omega

end ProjectTracker

/-!
## Theorems: registration and deletion
-/

namespace Helpdesk

/-- Claim C8: a registration whose username or email duplicates an
existing user's hits the `UNIQUE` constraint and is rejected with the
"already exists" message, leaving the `users` table unchanged; a
registration with fresh username and email inserts exactly one row. -/
theorem claim_C8_unique_registration (tbl : UsersTable)
    (username email password : String) :
    ((∃ u ∈ tbl.rows, u.username = username ∨ u.email = email) →
      register tbl username email password = (.alreadyExists, tbl)) ∧
    ((∀ u ∈ tbl.rows, u.username ≠ username ∧ u.email ≠ email) →
      register tbl username email password =
        (.redirectLogin,
         ⟨tbl.rows ++ [⟨tbl.next_id, username, email, password, "customer"⟩],
          tbl.next_id + 1⟩)) := by
  constructor
  · intro hdup
    have hany : (tbl.rows.any fun u =>
        u.username = username || u.email = email) = true := by
      simp only [List.any_eq_true, Bool.or_eq_true, decide_eq_true_eq]
      exact hdup
    simp [register, insert_user, hany]
  · intro hfresh
    have hany : (tbl.rows.any fun u =>
        u.username = username || u.email = email) = false := by
      simp only [List.any_eq_false, Bool.or_eq_true, decide_eq_true_eq,
        not_or]
      exact hfresh
    simp [register, insert_user, hany]

/-- Witness for C8: re-registering the username `alice` is rejected and
changes nothing; registering the fresh `bob` appends exactly one row. -/
theorem claim_C8_witness :
    register ⟨[⟨1, "alice", "alice@school.org", "pw", "customer"⟩], 2⟩
        "alice" "other@school.org" "pw2" =
      (.alreadyExists,
       ⟨[⟨1, "alice", "alice@school.org", "pw", "customer"⟩], 2⟩) ∧
    register ⟨[⟨1, "alice", "alice@school.org", "pw", "customer"⟩], 2⟩
        "bob" "bob@school.org" "pw2" =
      (.redirectLogin,
       ⟨[⟨1, "alice", "alice@school.org", "pw", "customer"⟩,
         ⟨2, "bob", "bob@school.org", "pw2", "customer"⟩], 3⟩) :=
  ⟨(claim_C8_unique_registration
      ⟨[⟨1, "alice", "alice@school.org", "pw", "customer"⟩], 2⟩
      "alice" "other@school.org" "pw2").1
      ⟨_, List.mem_singleton_self _, Or.inl rfl⟩,
   (claim_C8_unique_registration
      ⟨[⟨1, "alice", "alice@school.org", "pw", "customer"⟩], 2⟩
      "bob" "bob@school.org" "pw2").2 (by decide)⟩

end Helpdesk

namespace BasicCrud

/-- Claim C9: deleting an id always redirects to the index page, leaves
every row with a different id in place (and invents no rows), and when
no row matches the id the table is completely unchanged — no error. -/
theorem claim_C9_delete_frame (items : List Item) (item_id : Nat) :
    (BasicCrud.delete items item_id).1 = .redirectIndex ∧
    (∀ it ∈ items, it.id ≠ item_id →
      it ∈ (BasicCrud.delete items item_id).2) ∧
    (∀ it ∈ (BasicCrud.delete items item_id).2,
      it ∈ items ∧ it.id ≠ item_id) ∧
    ((∀ it ∈ items, it.id ≠ item_id) →
      (BasicCrud.delete items item_id).2 = items) := by
  refine ⟨rfl, ?_, ?_, ?_⟩
  · intro it hit hne
    simp [BasicCrud.delete, List.mem_filter, hit, hne]
  · intro it hit
    simp only [BasicCrud.delete, List.mem_filter, bne_iff_ne, ne_eq] at hit
    exact ⟨hit.1, hit.2⟩
  · intro hall
    simp only [BasicCrud.delete]
    rw [List.filter_eq_self]
    intro a ha
    simpa using hall a ha

/-- Witness for C9: deleting the nonexistent id 3 from a two-row table
is a no-op and still redirects. -/
theorem claim_C9_witness :
    (BasicCrud.delete [⟨1, "pen", "blue pen"⟩, ⟨2, "pad", "note pad"⟩] 3).1 =
      .redirectIndex ∧
    (BasicCrud.delete [⟨1, "pen", "blue pen"⟩, ⟨2, "pad", "note pad"⟩] 3).2 =
      [⟨1, "pen", "blue pen"⟩, ⟨2, "pad", "note pad"⟩] :=
  ⟨(claim_C9_delete_frame
      [⟨1, "pen", "blue pen"⟩, ⟨2, "pad", "note pad"⟩] 3).1,
   (claim_C9_delete_frame
      [⟨1, "pen", "blue pen"⟩, ⟨2, "pad", "note pad"⟩] 3).2.2.2 (by decide)⟩

end BasicCrud
